import Mathlib

/-!
Verification of the application bootstrapper in `main.py` of the
Qt-liquid-glass-widgets repository.

The launcher is embedded shallowly: every toolkit call the script makes
(attribute mutation, default surface-format installation, application and
engine construction, import-path registration, diagnostic printing, the
load request, and the blocking event loop) is recorded as an `Event` in a
trace, and the inputs the script receives from the outside world (its own
directory, whether `Main.qml` exists, how many root objects the engine
reports after the load, and the integer the event loop returns) are
collected in a `World`. `main` maps a `World` to the returned exit code
together with the trace of effects, following `main.py` line by line.
-/

namespace MainPy

/-- OpenGL profile selector, as in Qt's `QSurfaceFormat.OpenGLContextProfile`. -/
inductive GLProfile where
  | NoProfile
  | CoreProfile
  | CompatibilityProfile
deriving DecidableEq, Repr

/-- Embedding of the `QSurfaceFormat` fields that `main.py` touches. -/
structure QSurfaceFormat where
  versionMajor : Nat
  versionMinor : Nat
  profile : GLProfile
  samples : Int
  swapInterval : Int
deriving DecidableEq, Repr

/-- Field values of a freshly constructed `QSurfaceFormat()` (Qt defaults:
requested version 2.0, no profile, samples -1, swap interval 1). -/
def QSurfaceFormat.init : QSurfaceFormat :=
  { versionMajor := 2, versionMinor := 0, profile := GLProfile.NoProfile,
    samples := -1, swapInterval := 1 }

/-- `fmt.setVersion(major, minor)`. -/
def QSurfaceFormat.setVersion (f : QSurfaceFormat) (major minor : Nat) : QSurfaceFormat :=
  { f with versionMajor := major, versionMinor := minor }

/-- `fmt.setProfile(p)`. -/
def QSurfaceFormat.setProfile (f : QSurfaceFormat) (p : GLProfile) : QSurfaceFormat :=
  { f with profile := p }

/-- `fmt.setSamples(n)`. -/
def QSurfaceFormat.setSamples (f : QSurfaceFormat) (n : Int) : QSurfaceFormat :=
  { f with samples := n }

/-- `fmt.setSwapInterval(n)`. -/
def QSurfaceFormat.setSwapInterval (f : QSurfaceFormat) (n : Int) : QSurfaceFormat :=
  { f with swapInterval := n }

/-- The format value built inside `setup_opengl` in `main.py`:
a fresh `QSurfaceFormat` with version (3,3), core profile, 4 samples and
swap interval 1 applied, in that order. -/
def setup_opengl_fmt : QSurfaceFormat :=
  (((QSurfaceFormat.init.setVersion 3 3).setProfile
      GLProfile.CoreProfile).setSamples 4).setSwapInterval 1

/-- Observable side effects of the launcher, in the order the script
performs them.  `printStderr` exists so that "the diagnostic goes to
standard output, not standard error" is a contentful statement; the
script never emits it (Python `print` writes to stdout). -/
inductive Event where
  | setAttribute (a : String)
  | setDefaultFormat (f : QSurfaceFormat)
  | constructApp
  | setApplicationName (s : String)
  | setOrganizationName (s : String)
  | setOrganizationDomain (s : String)
  | constructEngine
  | addImportPath (p : String)
  | printStdout (s : String)
  | printStderr (s : String)
  | load (url : String)
  | execLoop
deriving DecidableEq, Repr

/-- External inputs of one invocation of the launcher: the resolved
directory containing `main.py` (`Path(__file__).parent.resolve()`),
whether `main_qml.exists()` holds, the length of the list
`engine.rootObjects()` returns after the load, and the integer
`app.exec()` returns if the event loop is entered. -/
structure World where
  appDir : String
  mainQmlExists : Bool
  rootObjectsCount : Nat
  execResult : Int
deriving DecidableEq, Repr

/-- `qml_dir = app_dir / "qml"` in `main.py`. -/
def qml_dir (w : World) : String := w.appDir ++ "/qml"

/-- `components_dir = qml_dir / "components"` in `main.py`. -/
def components_dir (w : World) : String := qml_dir w ++ "/components"

/-- `main_qml = qml_dir / "Main.qml"` in `main.py`. -/
def main_qml (w : World) : String := qml_dir w ++ "/Main.qml"

/-- `QUrl.fromLocalFile(str(main_qml))`: a file URL for the root resource. -/
def main_qml_url (w : World) : String := "file://" ++ main_qml w

/-- Diagnostic printed when the root resource file is missing:
`print(f"Error: Main.qml not found at {main_qml}")`. -/
def missingMsg (w : World) : String := "Error: Main.qml not found at " ++ main_qml w

/-- Diagnostic printed when the engine reports no root objects:
`print("Error: Failed to load QML")`. -/
def loadFailedMsg : String := "Error: Failed to load QML"

/-- Events of the unconditional startup prefix of `main()` in `main.py`:
the `AA_ShareOpenGLContexts` attribute, `setup_opengl()` (which ends by
installing `setup_opengl_fmt` as the default format), construction of the
`QGuiApplication`, the three identity assignments, construction of the
`QQmlApplicationEngine`, and the two `addImportPath` calls. -/
def startupEvents (w : World) : List Event :=
  [ Event.setAttribute "AA_ShareOpenGLContexts",
    Event.setDefaultFormat setup_opengl_fmt,
    Event.constructApp,
    Event.setApplicationName "Liquid Glass Demo",
    Event.setOrganizationName "LiquidGlass",
    Event.setOrganizationDomain "liquidglass.demo",
    Event.constructEngine,
    Event.addImportPath (qml_dir w),
    Event.addImportPath (components_dir w) ]

/-- Embedding of `main()` in `main.py`: returns the exit code (the value
`sys.exit` receives) together with the trace of side effects. -/
def main (w : World) : Int × List Event :=
  let evs := startupEvents w
  if !w.mainQmlExists then
    (1, evs ++ [Event.printStdout (missingMsg w)])
  else
    let evs := evs ++ [Event.load (main_qml_url w)]
    if w.rootObjectsCount = 0 then
      (1, evs ++ [Event.printStdout loadFailedMsg])
    else
      (w.execResult, evs ++ [Event.execLoop])

/-- Import paths registered on the engine strictly before position `k` of
the trace, in insertion order. -/
def importPathsAt (tr : List Event) (k : Nat) : List String :=
  (tr.take k).filterMap fun e =>
    match e with
    | Event.addImportPath p => some p
    | _ => none

/-- True on the event that requests the engine load. -/
def Event.isLoad : Event → Bool
  | Event.load _ => true
  | _ => false

/-- True on assignments of the application name. -/
def Event.isSetAppName : Event → Bool
  | Event.setApplicationName _ => true
  | _ => false

/-- True on assignments of the organization name. -/
def Event.isSetOrgName : Event → Bool
  | Event.setOrganizationName _ => true
  | _ => false

/-- True on assignments of the organization domain. -/
def Event.isSetOrgDomain : Event → Bool
  | Event.setOrganizationDomain _ => true
  | _ => false

/-- True on events that print a diagnostic line to standard output. -/
def Event.isStdoutDiag : Event → Bool
  | Event.printStdout _ => true
  | _ => false

/-- True on events that print a diagnostic line to standard error. -/
def Event.isStderrDiag : Event → Bool
  | Event.printStderr _ => true
  | _ => false

/-- Case analysis on the two branch conditions of `main`: the trace is the
startup prefix followed by one of three tails. -/
theorem main_trace (w : World) :
    (main w).2 = startupEvents w ++
      (if !w.mainQmlExists then [Event.printStdout (missingMsg w)]
       else Event.load (main_qml_url w) ::
         (if w.rootObjectsCount = 0 then [Event.printStdout loadFailedMsg]
          else [Event.execLoop])) := by
  cases hw : w.mainQmlExists <;> by_cases hr : w.rootObjectsCount = 0 <;>
    simp [main, hw, hr]

/-- Helper: in a list where at most one element satisfies `p`, any two
positions holding elements satisfying `p` are the same position. -/
theorem countP_le_one_index_unique {α : Type} (p : α → Bool) :
    ∀ (l : List α) (i j : Nat) (a b : α), l.countP p ≤ 1 →
      l.get? i = some a → p a = true → l.get? j = some b → p b = true → i = j := by
  intro l
  induction l with
  | nil =>
    intro i j a b _ hi _ _ _
    simp [List.get?] at hi
  | cons x xs ih =>
    intro i j a b hc hi hpa hj hpb
    cases i with
    | zero =>
      cases j with
      | zero => rfl
      | succ j =>
        exfalso
        have hxa : x = a := by simpa [List.get?] using hi
        have hb : b ∈ xs := List.get?_mem (by simpa [List.get?] using hj)
        have hpx : p x = true := by rw [hxa]; exact hpa
        simp [List.countP_cons, hpx] at hc
        have hf := hc b hb
        simp [hf] at hpb
    | succ i =>
      cases j with
      | zero =>
        exfalso
        have hxb : x = b := by simpa [List.get?] using hj
        have ha : a ∈ xs := List.get?_mem (by simpa [List.get?] using hi)
        have hpx : p x = true := by rw [hxb]; exact hpb
        simp [List.countP_cons, hpx] at hc
        have hf := hc a ha
        simp [hf] at hpa
      | succ j =>
        have hc' : xs.countP p ≤ 1 := by
          rw [List.countP_cons] at hc
          exact le_trans (Nat.le_add_right _ _) hc
        have hij := ih i j a b hc' (by simpa [List.get?] using hi) hpa
          (by simpa [List.get?] using hj) hpb
        omega

/-- C1: if the root resource file (`Main.qml` in the UI-root directory)
does not exist, `main` returns exit code 1, prints a diagnostic that
names the missing path, and never enters the blocking event loop. -/
theorem C1_missing_root (w : World) (h : w.mainQmlExists = false) :
    (main w).1 = 1 ∧
    Event.printStdout (missingMsg w) ∈ (main w).2 ∧
    Event.execLoop ∉ (main w).2 := by
  simp [main, h, startupEvents]

/-- C1 witness: evaluation at a concrete world with the root resource
absent. -/
theorem C1_missing_root_witness :
    (⟨"/w1", false, 0, 0⟩ : World).mainQmlExists = false ∧
    ((main ⟨"/w1", false, 0, 0⟩).1 = 1 ∧
     Event.printStdout (missingMsg ⟨"/w1", false, 0, 0⟩) ∈
       (main ⟨"/w1", false, 0, 0⟩).2 ∧
     Event.execLoop ∉ (main ⟨"/w1", false, 0, 0⟩).2) :=
  ⟨rfl, C1_missing_root ⟨"/w1", false, 0, 0⟩ rfl⟩

/-- C2: if the root resource exists but the engine reports zero root
objects after the load call, `main` returns exit code 1, prints a
diagnostic, and never enters the blocking event loop; the load was
requested beforehand. -/
theorem C2_load_failure (w : World) (h1 : w.mainQmlExists = true)
    (h2 : w.rootObjectsCount = 0) :
    (main w).1 = 1 ∧
    Event.load (main_qml_url w) ∈ (main w).2 ∧
    Event.printStdout loadFailedMsg ∈ (main w).2 ∧
    Event.execLoop ∉ (main w).2 := by
  simp [main, h1, h2, startupEvents]

/-- C2 witness: evaluation at a concrete world where the load yields zero
root objects. -/
theorem C2_load_failure_witness :
    ((⟨"/w2", true, 0, 0⟩ : World).mainQmlExists = true ∧
     (⟨"/w2", true, 0, 0⟩ : World).rootObjectsCount = 0) ∧
    ((main ⟨"/w2", true, 0, 0⟩).1 = 1 ∧
     Event.load (main_qml_url ⟨"/w2", true, 0, 0⟩) ∈ (main ⟨"/w2", true, 0, 0⟩).2 ∧
     Event.printStdout loadFailedMsg ∈ (main ⟨"/w2", true, 0, 0⟩).2 ∧
     Event.execLoop ∉ (main ⟨"/w2", true, 0, 0⟩).2) :=
  ⟨⟨rfl, rfl⟩, C2_load_failure ⟨"/w2", true, 0, 0⟩ rfl rfl⟩

/-- C3: if the root resource exists and the load yields at least one root
object, `main` enters the blocking event loop and returns exactly the
integer the event loop returns. -/
theorem C3_happy_path (w : World) (h1 : w.mainQmlExists = true)
    (h2 : w.rootObjectsCount ≠ 0) :
    (main w).1 = w.execResult ∧ Event.execLoop ∈ (main w).2 := by
  simp [main, h1, h2, startupEvents]

/-- C3 witness: evaluation at a concrete world with a successful load and
event-loop result 7. -/
theorem C3_happy_path_witness :
    ((⟨"/w3", true, 1, 7⟩ : World).mainQmlExists = true ∧
     (⟨"/w3", true, 1, 7⟩ : World).rootObjectsCount ≠ 0) ∧
    ((main ⟨"/w3", true, 1, 7⟩).1 = (⟨"/w3", true, 1, 7⟩ : World).execResult ∧
     Event.execLoop ∈ (main ⟨"/w3", true, 1, 7⟩).2) :=
  ⟨⟨rfl, by decide⟩, C3_happy_path ⟨"/w3", true, 1, 7⟩ rfl (by decide)⟩

/-- C4: in every run the default surface format is installed strictly
before the application object is constructed, the installed value is
exactly version 3.3, core profile, 4 samples, swap interval 1, and no
other format value is ever installed. -/
theorem C4_surface_format (w : World) :
    setup_opengl_fmt =
      { versionMajor := 3, versionMinor := 3, profile := GLProfile.CoreProfile,
        samples := 4, swapInterval := 1 } ∧
    (main w).2.get? 1 = some (Event.setDefaultFormat setup_opengl_fmt) ∧
    (main w).2.get? 2 = some Event.constructApp ∧
    ∀ k f, (main w).2.get? k = some (Event.setDefaultFormat f) →
      f = setup_opengl_fmt := by
  refine ⟨rfl, ?_, ?_, ?_⟩
  · rw [main_trace]; simp [startupEvents]
  · rw [main_trace]; simp [startupEvents]
  · intro k f hk
    have hm : Event.setDefaultFormat f ∈ (main w).2 := List.get?_mem hk
    rw [main_trace] at hm
    cases hw : w.mainQmlExists <;> by_cases hr : w.rootObjectsCount = 0 <;>
      simp [hw, hr, startupEvents] at hm <;> exact hm

/-- C4 witness: the positional facts evaluated at a concrete world. -/
theorem C4_surface_format_witness :
    (main ⟨"/w4", true, 1, 0⟩).2.get? 1 =
      some (Event.setDefaultFormat setup_opengl_fmt) ∧
    (main ⟨"/w4", true, 1, 0⟩).2.get? 2 = some Event.constructApp :=
  ⟨(C4_surface_format ⟨"/w4", true, 1, 0⟩).2.1,
   (C4_surface_format ⟨"/w4", true, 1, 0⟩).2.2.1⟩

/-- C5: whenever the load of the root resource is requested, the import
paths registered on the engine so far are exactly the UI-root (`qml`)
directory followed by its `components` subdirectory, in insertion order. -/
theorem C5_import_paths (w : World) (k : Nat) (url : String)
    (h : (main w).2.get? k = some (Event.load url)) :
    importPathsAt (main w).2 k = [qml_dir w, components_dir w] := by
  cases hw : w.mainQmlExists with
  | false =>
    exfalso
    have hm : Event.load url ∈ (main w).2 := List.get?_mem h
    rw [main_trace] at hm
    simp [hw, startupEvents] at hm
  | true =>
    have h9 : (main w).2.get? 9 = some (Event.load (main_qml_url w)) := by
      rw [main_trace]
      by_cases hr : w.rootObjectsCount = 0 <;> simp [hw, hr, startupEvents]
    have hcount : (main w).2.countP Event.isLoad ≤ 1 := by
      rw [main_trace]
      by_cases hr : w.rootObjectsCount = 0 <;>
        simp [hw, hr, startupEvents, List.countP_cons, Event.isLoad]
    have hk : k = 9 :=
      countP_le_one_index_unique Event.isLoad (main w).2 k 9 _ _ hcount h rfl h9 rfl
    subst hk
    by_cases hr : w.rootObjectsCount = 0 <;>
      simp [main, hw, hr, startupEvents, importPathsAt]

/-- C5 witness: evaluation at a concrete world; the load event sits at
index 9 of the trace. -/
theorem C5_import_paths_witness :
    (main ⟨"/w5", true, 1, 0⟩).2.get? 9 =
      some (Event.load "file:///w5/qml/Main.qml") ∧
    importPathsAt (main ⟨"/w5", true, 1, 0⟩).2 9 =
      [qml_dir ⟨"/w5", true, 1, 0⟩, components_dir ⟨"/w5", true, 1, 0⟩] :=
  ⟨by decide,
   C5_import_paths ⟨"/w5", true, 1, 0⟩ 9 "file:///w5/qml/Main.qml" (by decide)⟩

/-- C6: on every execution path the shared-GPU-context attribute is set
at the very first step, strictly before the application object is
constructed; every construction of the application object in the trace
occurs after position 0. -/
theorem C6_attribute_before_app (w : World) :
    (main w).2.get? 0 = some (Event.setAttribute "AA_ShareOpenGLContexts") ∧
    (main w).2.get? 2 = some Event.constructApp ∧
    ∀ j, (main w).2.get? j = some Event.constructApp → 0 < j := by
  refine ⟨?_, ?_, ?_⟩
  · rw [main_trace]; simp [startupEvents]
  · rw [main_trace]; simp [startupEvents]
  · intro j hj
    cases j with
    | zero =>
      rw [main_trace] at hj
      simp [startupEvents] at hj
    | succ n => exact Nat.succ_pos n

/-- C6 witness: the positional facts evaluated at a concrete world. -/
theorem C6_attribute_before_app_witness :
    (main ⟨"/w6", false, 0, 0⟩).2.get? 0 =
      some (Event.setAttribute "AA_ShareOpenGLContexts") ∧
    (main ⟨"/w6", false, 0, 0⟩).2.get? 2 = some Event.constructApp :=
  ⟨(C6_attribute_before_app ⟨"/w6", false, 0, 0⟩).1,
   (C6_attribute_before_app ⟨"/w6", false, 0, 0⟩).2.1⟩

/-- C7: immediately after the application object is constructed (trace
position 2), its identity fields are assigned name, organization and
domain at positions 3, 4 and 5 with exactly the literal values from the
source, and no other assignment to any of the three fields occurs
anywhere in the trace. -/
theorem C7_identity_fields (w : World) :
    (main w).2.get? 2 = some Event.constructApp ∧
    (main w).2.get? 3 = some (Event.setApplicationName "Liquid Glass Demo") ∧
    (main w).2.get? 4 = some (Event.setOrganizationName "LiquidGlass") ∧
    (main w).2.get? 5 = some (Event.setOrganizationDomain "liquidglass.demo") ∧
    (∀ k s, (main w).2.get? k = some (Event.setApplicationName s) →
      k = 3 ∧ s = "Liquid Glass Demo") ∧
    (∀ k s, (main w).2.get? k = some (Event.setOrganizationName s) →
      k = 4 ∧ s = "LiquidGlass") ∧
    (∀ k s, (main w).2.get? k = some (Event.setOrganizationDomain s) →
      k = 5 ∧ s = "liquidglass.demo") := by
  have h2 : (main w).2.get? 2 = some Event.constructApp := by
    rw [main_trace]; simp [startupEvents]
  have h3 : (main w).2.get? 3 = some (Event.setApplicationName "Liquid Glass Demo") := by
    rw [main_trace]; simp [startupEvents]
  have h4 : (main w).2.get? 4 = some (Event.setOrganizationName "LiquidGlass") := by
    rw [main_trace]; simp [startupEvents]
  have h5 : (main w).2.get? 5 = some (Event.setOrganizationDomain "liquidglass.demo") := by
    rw [main_trace]; simp [startupEvents]
  refine ⟨h2, h3, h4, h5, ?_, ?_, ?_⟩
  · intro k s hk
    have hcount : (main w).2.countP Event.isSetAppName ≤ 1 := by
      rw [main_trace]
      cases hw : w.mainQmlExists <;> by_cases hr : w.rootObjectsCount = 0 <;>
        simp [hw, hr, startupEvents, List.countP_cons, Event.isSetAppName]
    have hk3 : k = 3 :=
      countP_le_one_index_unique Event.isSetAppName (main w).2 k 3 _ _ hcount hk rfl h3 rfl
    subst hk3
    have hs := hk.symm.trans h3
    simp at hs
    exact ⟨rfl, hs⟩
  · intro k s hk
    have hcount : (main w).2.countP Event.isSetOrgName ≤ 1 := by
      rw [main_trace]
      cases hw : w.mainQmlExists <;> by_cases hr : w.rootObjectsCount = 0 <;>
        simp [hw, hr, startupEvents, List.countP_cons, Event.isSetOrgName]
    have hk4 : k = 4 :=
      countP_le_one_index_unique Event.isSetOrgName (main w).2 k 4 _ _ hcount hk rfl h4 rfl
    subst hk4
    have hs := hk.symm.trans h4
    simp at hs
    exact ⟨rfl, hs⟩
  · intro k s hk
    have hcount : (main w).2.countP Event.isSetOrgDomain ≤ 1 := by
      rw [main_trace]
      cases hw : w.mainQmlExists <;> by_cases hr : w.rootObjectsCount = 0 <;>
        simp [hw, hr, startupEvents, List.countP_cons, Event.isSetOrgDomain]
    have hk5 : k = 5 :=
      countP_le_one_index_unique Event.isSetOrgDomain (main w).2 k 5 _ _ hcount hk rfl h5 rfl
    subst hk5
    have hs := hk.symm.trans h5
    simp at hs
    exact ⟨rfl, hs⟩

/-- C7 witness: the positional facts evaluated at a concrete world. -/
theorem C7_identity_fields_witness :
    (main ⟨"/w7", true, 2, 0⟩).2.get? 3 =
      some (Event.setApplicationName "Liquid Glass Demo") ∧
    (main ⟨"/w7", true, 2, 0⟩).2.get? 4 =
      some (Event.setOrganizationName "LiquidGlass") ∧
    (main ⟨"/w7", true, 2, 0⟩).2.get? 5 =
      some (Event.setOrganizationDomain "liquidglass.demo") :=
  ⟨(C7_identity_fields ⟨"/w7", true, 2, 0⟩).2.1,
   (C7_identity_fields ⟨"/w7", true, 2, 0⟩).2.2.1,
   (C7_identity_fields ⟨"/w7", true, 2, 0⟩).2.2.2.1⟩

/-- C8 counterexample: with the root resource present, one root object,
and an event loop that returns 5, `main` returns the non-zero exit code 5
although neither failure condition (missing root resource, zero root
objects) occurs — refuting the claimed "non-zero iff failure"
equivalence. -/
theorem C8_counterexample :
    (main ⟨"/w8", true, 1, 5⟩).1 ≠ 0 ∧
    (⟨"/w8", true, 1, 5⟩ : World).mainQmlExists = true ∧
    (⟨"/w8", true, 1, 5⟩ : World).rootObjectsCount ≠ 0 := by
  decide

/-- C8 (amended): assuming the event loop returns 0 when entered, `main`
returns a non-zero exit code iff one of the two failure conditions
occurs, both failures map to the same exit code 1, and `main` always
returns an exit code (it is a total function, so no exception escapes). -/
theorem C8_exit_codes (w : World) (h : w.execResult = 0) :
    ((main w).1 ≠ 0 ↔ (w.mainQmlExists = false ∨ w.rootObjectsCount = 0)) ∧
    ((main w).1 ≠ 0 → (main w).1 = 1) ∧
    ((w.mainQmlExists = false ∨ w.rootObjectsCount = 0) → (main w).1 = 1) := by
  cases hw : w.mainQmlExists <;> by_cases hr : w.rootObjectsCount = 0 <;>
    simp [main, hw, hr, h]

/-- C8 (amended) witness: evaluation at a concrete world whose event loop
returns 0. -/
theorem C8_exit_codes_witness :
    (⟨"/w8b", true, 0, 0⟩ : World).execResult = 0 ∧
    (main ⟨"/w8b", true, 0, 0⟩).1 = 1 :=
  ⟨rfl, (C8_exit_codes ⟨"/w8b", true, 0, 0⟩ rfl).2.2 (Or.inr rfl)⟩

/-- C9: on the missing-root-resource path, the process-wide side effects
have all already happened before the exit-code-1 return: attribute set,
default format installed, application and engine constructed, and both
paths registered with the engine for component resolution. -/
theorem C9_effects_before_missing_exit (w : World) (h : w.mainQmlExists = false) :
    (main w).1 = 1 ∧
    Event.setAttribute "AA_ShareOpenGLContexts" ∈ (main w).2 ∧
    Event.setDefaultFormat setup_opengl_fmt ∈ (main w).2 ∧
    Event.constructApp ∈ (main w).2 ∧
    Event.constructEngine ∈ (main w).2 ∧
    Event.addImportPath (qml_dir w) ∈ (main w).2 ∧
    Event.addImportPath (components_dir w) ∈ (main w).2 := by
  simp [main, h, startupEvents]

/-- C9 witness: evaluation at a concrete world with the root resource
absent. -/
theorem C9_effects_before_missing_exit_witness :
    (⟨"/w9", false, 0, 0⟩ : World).mainQmlExists = false ∧
    ((main ⟨"/w9", false, 0, 0⟩).1 = 1 ∧
     Event.setAttribute "AA_ShareOpenGLContexts" ∈ (main ⟨"/w9", false, 0, 0⟩).2 ∧
     Event.setDefaultFormat setup_opengl_fmt ∈ (main ⟨"/w9", false, 0, 0⟩).2 ∧
     Event.constructApp ∈ (main ⟨"/w9", false, 0, 0⟩).2 ∧
     Event.constructEngine ∈ (main ⟨"/w9", false, 0, 0⟩).2 ∧
     Event.addImportPath (qml_dir ⟨"/w9", false, 0, 0⟩) ∈ (main ⟨"/w9", false, 0, 0⟩).2 ∧
     Event.addImportPath (components_dir ⟨"/w9", false, 0, 0⟩) ∈
       (main ⟨"/w9", false, 0, 0⟩).2) :=
  ⟨rfl, C9_effects_before_missing_exit ⟨"/w9", false, 0, 0⟩ rfl⟩

/-- C10: on either failure path exactly one diagnostic line is printed,
and it goes to standard output; nothing is ever written to standard
error. -/
theorem C10_diag_stdout (w : World)
    (h : w.mainQmlExists = false ∨ w.rootObjectsCount = 0) :
    (main w).2.countP Event.isStdoutDiag = 1 ∧
    (main w).2.countP Event.isStderrDiag = 0 := by
  cases hw : w.mainQmlExists <;> by_cases hr : w.rootObjectsCount = 0
  · simp [main, hw, hr, startupEvents, Event.isStdoutDiag, Event.isStderrDiag]
  · simp [main, hw, hr, startupEvents, Event.isStdoutDiag, Event.isStderrDiag]
  · simp [main, hw, hr, startupEvents, Event.isStdoutDiag, Event.isStderrDiag]
  · simp [hw, hr] at h

/-- C10 witness: evaluation at a concrete world with the root resource
absent. -/
theorem C10_diag_stdout_witness :
    ((⟨"/wa", false, 0, 0⟩ : World).mainQmlExists = false ∨
     (⟨"/wa", false, 0, 0⟩ : World).rootObjectsCount = 0) ∧
    ((main ⟨"/wa", false, 0, 0⟩).2.countP Event.isStdoutDiag = 1 ∧
     (main ⟨"/wa", false, 0, 0⟩).2.countP Event.isStderrDiag = 0) :=
  ⟨Or.inl rfl, C10_diag_stdout ⟨"/wa", false, 0, 0⟩ (Or.inl rfl)⟩

end MainPy
